import Mathlib

/-!
Verification of the Advanced Research orchestration system.

The development shallowly embeds the repository's code:

* `advanced_research/search_tools.py` is embedded directly
  (`duckduckgo_search_tool`, `gemini_search_tool`); the external world
  (installed packages, environment variables, HTTP responses) is passed in
  as an explicit parameter, and Python exceptions are modelled with
  `Except`.
* The orchestration core `advanced_research/main.py` is present in the
  repository only through its tests, its package declarations and its
  callers; the definitions for it below are modelled from the spec, each
  marked `Modelled from the spec:` in its doc comment.

JSON values are modelled by the inductive `Json`; JSON numbers carry the
literal text that `json.dumps` would print for them (the source only ever
serialises the float literals 0.0, 1.0 and 0.8, and integers), since
floating point itself is not shallowly embeddable.
-/

/-- A JSON value.  Objects and arrays keep insertion order, as Python
dicts and `json.dumps` do.  A number carries its serialised literal. -/
inductive Json where
  | null
  | bool (b : Bool)
  | num (lit : String)
  | str (s : String)
  | arr (elems : List Json)
  | obj (fields : List (String × Json))
deriving Repr

/-- Fixed-width base-`b` digit expansion (most significant digit first),
zero padded to width `w`; used for timestamps (base 10) and for the
\uXXXX escapes of `json.dumps` (base 16). -/
def padBaseDigits (b : Nat) : Nat → Nat → List Char
  | 0, _ => []
  | w + 1, n => padBaseDigits b w (n / b) ++ [Nat.digitChar (n % b)]

/-- Escape of one character inside a JSON string, following
`json.dumps` with its default `ensure_ascii=True`: non-ASCII and control
characters become \uXXXX escapes (astral characters become a surrogate
pair). -/
def jsonEscapeChar (c : Char) : String :=
  if c = '"' then "\\\""
  else if c = '\\' then "\\\\"
  else if c = '\n' then "\\n"
  else if c = '\t' then "\\t"
  else if c = '\r' then "\\r"
  else if c.toNat < 32 || c.toNat > 126 then
    if c.toNat < 65536 then
      "\\u" ++ String.mk (padBaseDigits 16 4 c.toNat)
    else
      "\\u" ++ String.mk (padBaseDigits 16 4 (55296 + (c.toNat - 65536) / 1024)) ++
      "\\u" ++ String.mk (padBaseDigits 16 4 (56320 + (c.toNat - 65536) % 1024))
  else String.singleton c

/-- A JSON string literal, quotes included. -/
def jsonQuote (s : String) : String :=
  "\"" ++ String.join (s.data.map jsonEscapeChar) ++ "\""

mutual

/-- Serialisation of a JSON value as Python's `json.dumps(x)` with the
default separators. -/
def jsonDumps : Json → String
  | .null => "null"
  | .bool b => cond b "true" "false"
  | .num lit => lit
  | .str s => jsonQuote s
  | .arr xs => "[" ++ String.intercalate ", " (jsonDumpsList xs) ++ "]"
  | .obj kvs => "\x7b" ++ String.intercalate ", " (jsonDumpsKVs kvs) ++ "\x7d"

def jsonDumpsList : List Json → List String
  | [] => []
  | j :: js => jsonDumps j :: jsonDumpsList js

def jsonDumpsKVs : List (String × Json) → List String
  | [] => []
  | (k, v) :: kvs => (jsonQuote k ++ ": " ++ jsonDumps v) :: jsonDumpsKVs kvs

end

/-- Indentation prefix used by `json.dumps(x, indent=2)` at nesting
depth `d`. -/
def indentStr (d : Nat) : String :=
  String.mk (List.replicate (2 * d) ' ')

mutual

/-- Serialisation of a JSON value as Python's `json.dumps(x, indent=2)`
renders it at nesting depth `d`: non-empty containers are spread over
lines, empty containers print compactly. -/
def jsonDumpsIndentAt : Nat → Json → String
  | _, .null => "null"
  | _, .bool b => cond b "true" "false"
  | _, .num lit => lit
  | _, .str s => jsonQuote s
  | _, .arr [] => "[]"
  | d, .arr (x :: xs) =>
    "[\n" ++ String.intercalate ",\n" (jsonDumpsIndentList (d + 1) (x :: xs)) ++
    "\n" ++ indentStr d ++ "]"
  | _, .obj [] => "\x7b\x7d"
  | d, .obj (kv :: kvs) =>
    "\x7b\n" ++ String.intercalate ",\n" (jsonDumpsIndentKVs (d + 1) (kv :: kvs)) ++
    "\n" ++ indentStr d ++ "\x7d"

def jsonDumpsIndentList : Nat → List Json → List String
  | _, [] => []
  | d, j :: js => (indentStr d ++ jsonDumpsIndentAt d j) :: jsonDumpsIndentList d js

def jsonDumpsIndentKVs : Nat → List (String × Json) → List String
  | _, [] => []
  | d, (k, v) :: kvs =>
    (indentStr d ++ jsonQuote k ++ ": " ++ jsonDumpsIndentAt d v) :: jsonDumpsIndentKVs d kvs

end

/-- Serialisation as Python's `json.dumps(x, indent=2)`. -/
def jsonDumpsIndent2 (j : Json) : String :=
  jsonDumpsIndentAt 0 j

/-- Python truthiness of a JSON value (`if x:`): `None`, `False`, zero,
the empty string and empty containers are falsy. -/
def pyTruthy : Json → Bool
  | .null => false
  | .bool b => b
  | .num lit => !(lit == "0" || lit == "0.0" || lit == "-0.0")
  | .str s => !(s == "")
  | .arr xs => !xs.isEmpty
  | .obj kvs => !kvs.isEmpty

/-- Python's `x.get(k, d)` on a value that the code expects to be a
dict: returns the stored value (first occurrence) or the default, and
raises `AttributeError` when `x` is not a dict. -/
def pyGetD (j : Json) (k : String) (d : Json) : Except String Json :=
  match j with
  | .obj kvs =>
    match kvs.find? (fun p => p.1 == k) with
    | some p => .ok p.2
    | none => .ok d
  | _ => .error "AttributeError: object has no attribute get"

/-- Python's `x.get(k)` (default `None`). -/
def pyGet (j : Json) (k : String) : Except String Json :=
  pyGetD j k Json.null

/-- Python's `x[0]`: raises unless `x` is a non-empty list. -/
def pyIndexZero : Json → Except String Json
  | .arr (x :: _) => .ok x
  | .arr [] => .error "IndexError: list index out of range"
  | _ => .error "TypeError: object is not subscriptable"

/-- Iterating a JSON value with `for x in xs`: the code's loops are only
meaningful over lists; every non-list value makes the loop body (or the
iteration itself) raise, modelled as an immediate error. -/
def pyList : Json → Except String (List Json)
  | .arr xs => .ok xs
  | _ => .error "TypeError: object is not iterable"

/-- Python truthiness of `os.getenv(...)`: `None` and the empty string
are falsy. -/
def pyTruthyStrOpt : Option String → Bool
  | none => false
  | some s => !(s == "")

/-!
`advanced_research/search_tools.py`.
-/

/-- Outcome of the DuckDuckGo backend for one call of
`duckduckgo_search_tool`: the `duckduckgo_search` package may be
missing (`ImportError`), `DDGS()`/`ddgs.text(...)` may raise, or the
backend returns a list of raw result values (documented in the source
as dicts with keys `title`, `href`, `body`). -/
inductive DDGOutcome where
  | importError
  | raises (msg : String)
  | ok (results : List Json)

/-- The formatting loop of `duckduckgo_search_tool` (lines 36-47):
`r.get("title")`, `r.get("href")`, `r.get("body", "")` and the constant
fields `score`, `id`, `publishedDate`, in source order; a raw result
that is not a dict makes `r.get` raise, which the caller catches. -/
def ddgFormat : List Json → Except String (List Json)
  | [] => .ok []
  | r :: rs =>
    match pyGet r "title" with
    | .error e => .error e
    | .ok title =>
      match pyGet r "href" with
      | .error e => .error e
      | .ok url =>
        match pyGetD r "body" (Json.str "") with
        | .error e => .error e
        | .ok text =>
          match ddgFormat rs with
          | .error e => .error e
          | .ok rest =>
            .ok (Json.obj [("title", title), ("url", url), ("text", text),
                           ("score", Json.num "0.0"), ("id", Json.str ""),
                           ("publishedDate", Json.str "")] :: rest)

/-- `duckduckgo_search_tool(query, characters, sources)`: import failure
returns the fixed `Error:` string; any exception from the backend (or
from formatting) returns `"Search failed: " + str(e)`; success returns
`json.dumps({"results": formatted_results}, indent=2)`. -/
def duckduckgo_search_tool (_query : String) (_characters : Nat)
    (_sources : Nat) (env : DDGOutcome) : String :=
  match env with
  | .importError =>
    "Error: duckduckgo-search package is not installed. Please install it with `pip install duckduckgo-search`."
  | .raises e => "Search failed: " ++ e
  | .ok results =>
    match ddgFormat results with
    | .error e => "Search failed: " ++ e
    | .ok formatted => jsonDumpsIndent2 (Json.obj [("results", Json.arr formatted)])

/-- Outcome of `requests.post` in `gemini_search_tool`: the request may
raise, or it returns a response with a status code and a body on which
`response.json()` either parses or raises. -/
inductive HttpOutcome where
  | raises (msg : String)
  | response (status : Nat) (body : Except String Json)

/-- The world as seen by one call of `gemini_search_tool`: the
`GOOGLE_API_KEY` environment variable and the outcome of the HTTP
request, were it issued. -/
structure GeminiEnv where
  apiKey : Option String
  http : HttpOutcome

/-- The `text_content` accumulation of `gemini_search_tool`
(lines 113-116): `text_content += part.get("text", "")` over the parts;
a non-dict part or a non-string text raises, which the caller catches. -/
def accumText : List Json → String → Except String String
  | [], acc => .ok acc
  | p :: ps, acc =>
    match pyGetD p "text" (Json.str "") with
    | .error e => .error e
    | .ok (.str s) => accumText ps (acc ++ s)
    | .ok _ => .error "TypeError: can only concatenate str to str"

/-- The grounding-chunk loop of `gemini_search_tool` (lines 129-139):
for each chunk, `chunk.get("web")`; when truthy, a result with keys
`title`, `url`, `text`, `score` is appended. -/
def chunkResults : List Json → Except String (List Json)
  | [] => .ok []
  | c :: cs =>
    match pyGetD c "web" Json.null with
    | .error e => .error e
    | .ok web =>
      if pyTruthy web then
        match pyGetD web "title" (Json.str "Unknown Title") with
        | .error e => .error e
        | .ok title =>
          match pyGet web "uri" with
          | .error e => .error e
          | .ok uri =>
            match chunkResults cs with
            | .error e => .error e
            | .ok rest =>
              .ok (Json.obj [("title", title), ("url", uri),
                             ("text", Json.str "Source referenced in Gemini Grounding"),
                             ("score", Json.num "0.8")] :: rest)
      else
        match chunkResults cs with
        | .error e => .error e
        | .ok rest => .ok rest

/-- The body of `gemini_search_tool` after a 200 response was parsed
(lines 101-141): extract `candidates` (returning
`json.dumps({"results": []})` when falsy), the first candidate, its
grounding chunks and content parts, build the synthesized-answer result
when `text_content` is truthy, append one result per web chunk, and
return `json.dumps({"results": formatted_results}, indent=2)`.  An
error value is an exception reaching the surrounding `except`. -/
def geminiProcess (data : Json) : Except String String :=
  match pyGetD data "candidates" (Json.arr []) with
  | .error e => .error e
  | .ok candidates =>
    if pyTruthy candidates then
      match pyIndexZero candidates with
      | .error e => .error e
      | .ok candidate =>
        match pyGetD candidate "groundingMetadata" (Json.obj []) with
        | .error e => .error e
        | .ok gm =>
          match pyGetD gm "groundingChunks" (Json.arr []) with
          | .error e => .error e
          | .ok chunksJ =>
            match pyGetD candidate "content" (Json.obj []) with
            | .error e => .error e
            | .ok content =>
              match pyGetD content "parts" (Json.arr []) with
              | .error e => .error e
              | .ok partsJ =>
                match pyList partsJ with
                | .error e => .error e
                | .ok parts =>
                  match accumText parts "" with
                  | .error e => .error e
                  | .ok textContent =>
                    let first :=
                      if pyTruthy (Json.str textContent) then
                        [Json.obj [("title", Json.str "Gemini Search Summary"),
                                   ("url", Json.str "google_search_grounding"),
                                   ("text", Json.str textContent),
                                   ("score", Json.num "1.0")]]
                      else []
                    match pyList chunksJ with
                    | .error e => .error e
                    | .ok chunks =>
                      match chunkResults chunks with
                      | .error e => .error e
                      | .ok rest =>
                        .ok (jsonDumpsIndent2
                          (Json.obj [("results", Json.arr (first ++ rest))]))
    else
      .ok (jsonDumps (Json.obj [("results", Json.arr [])]))

/-- `gemini_search_tool(query, characters, sources)`.  The returned
`Bool` instruments whether the HTTP request was issued: the missing-key
early return happens before `requests.post`.  A missing or empty
`GOOGLE_API_KEY` returns the fixed `Error:` string; a raising request,
a non-200 status, a body that fails to parse, and any exception while
processing the parsed body all return a `"Search failed: "` string;
otherwise the result of `geminiProcess` is returned. -/
def gemini_search_tool (_query : String) (_characters : Nat)
    (_sources : Nat) (env : GeminiEnv) : String × Bool :=
  if pyTruthyStrOpt env.apiKey = false then
    ("Error: GOOGLE_API_KEY not found in environment variables.", false)
  else
    match env.http with
    | .raises e => ("Search failed: " ++ e, true)
    | .response status body =>
      if status ≠ 200 then
        ("Search failed: Gemini API returned status " ++ toString status, true)
      else
        match body with
        | .error e => ("Search failed: " ++ e, true)
        | .ok data =>
          match geminiProcess data with
          | .error e => ("Search failed: " ++ e, true)
          | .ok s => (s, true)

/-- A JSON value is an object carrying key `k`. -/
def hasKey (j : Json) (k : String) : Bool :=
  match j with
  | .obj kvs => kvs.any (fun p => p.1 == k)
  | _ => false

/-- Every element of `rs` is an object carrying all of `keys`. -/
def resultsHaveKeys (rs : List Json) (keys : List String) : Bool :=
  rs.all (fun r => keys.all (hasKey r))

/-- The result-object keys claimed for the search schema. -/
def schemaSixKeys : List String :=
  ["title", "url", "text", "score", "id", "publishedDate"]

/-- The result-object keys `gemini_search_tool` actually produces. -/
def geminiFourKeys : List String :=
  ["title", "url", "text", "score"]

/-- The claimed search-output schema, read off the claim's words: the
top-level object has key `results`, it maps to an array, and every
element carries all of `keys`. -/
def searchOutputSchemaOK (j : Json) (keys : List String) : Bool :=
  hasKey j "results" &&
    (match j with
     | .obj kvs =>
       match kvs.find? (fun p => p.1 == "results") with
       | some (_, .arr rs) => resultsHaveKeys rs keys
       | _ => false
     | _ => false)

/-- The ordered key list of a JSON object (empty for any other
value). -/
def objKeys : Json → List String
  | .obj kvs => kvs.map (fun p => p.1)
  | _ => []

/-- Every element of `rs` is an object whose key list is exactly
`keys`, in order — it carries those keys and no others. -/
def resultsHaveExactKeys (rs : List Json) (keys : List String) : Bool :=
  rs.all (fun r => objKeys r == keys)

/-- No element of `rs` carries key `k`. -/
def resultsLackKey (rs : List Json) (k : String) : Bool :=
  rs.all (fun r => !(hasKey r k))

/-- A Gemini response body with one grounded candidate whose answer
text is `"hello"` and which cites no web chunks. -/
def geminiBodyOneCandidate : Json :=
  Json.obj [("candidates", Json.arr
    [Json.obj [("content", Json.obj
      [("parts", Json.arr [Json.obj [("text", Json.str "hello")]])])]])]

/-- The JSON document `gemini_search_tool` serialises for
`geminiBodyOneCandidate`: a single result with only the four keys
`title`, `url`, `text`, `score`. -/
def geminiDocOneCandidate : Json :=
  Json.obj [("results", Json.arr
    [Json.obj [("title", Json.str "Gemini Search Summary"),
               ("url", Json.str "google_search_grounding"),
               ("text", Json.str "hello"),
               ("score", Json.num "1.0")]])]

/-!
The orchestration core `advanced_research/main.py` is not part of the
checked-in sources (only its tests, the package exports and the example
scripts refer to it), so the definitions below are modelled from the
spec, cross-checked against the unit tests in
`test_advanced_research.py`.
-/

/-- Modelled from the spec: the clock reading, with second resolution,
taken by `generate_id` (spec 4.1); `main.py` itself is missing from the
sources. -/
structure Timestamp where
  year : Nat
  month : Nat
  day : Nat
  hour : Nat
  minute : Nat
  second : Nat
deriving DecidableEq, Repr

/-- A clock reading whose components fit the fixed-width fields of the
`YYYYMMDDHHMMSS` rendering. -/
def Timestamp.valid (t : Timestamp) : Prop :=
  t.year < 10000 ∧ t.month < 100 ∧ t.day < 100 ∧
    t.hour < 100 ∧ t.minute < 100 ∧ t.second < 100

instance (t : Timestamp) : Decidable t.valid := by
  unfold Timestamp.valid; infer_instance

/-- The 14 characters `YYYYMMDDHHMMSS` of a clock reading. -/
def timestampChars (t : Timestamp) : List Char :=
  padBaseDigits 10 4 t.year ++ padBaseDigits 10 2 t.month ++
    padBaseDigits 10 2 t.day ++ padBaseDigits 10 2 t.hour ++
    padBaseDigits 10 2 t.minute ++ padBaseDigits 10 2 t.second

/-- Modelled from the spec: `generate_id()` produces
`<prefix>-time-<14-digit-timestamp>` with the timestamp taken at call
time at second resolution (spec 4.1); the prefix `AdvancedResearch` is
the one the unit tests assert.  The clock reading is passed explicitly;
`main.py` is missing from the sources. -/
def generate_id (now : Timestamp) : String :=
  "AdvancedResearch-time-" ++ String.mk (timestampChars now)

/-- Modelled from the spec: the state of the file at the JSON
Merge-Store's path — absent or empty, present but not valid JSON, or
present with parsed content (spec 4.2); `main.py` is missing from the
sources. -/
inductive FileState where
  | absent
  | invalid
  | content (j : Json)

/-- Modelled from the spec: the key-by-key update of the stored object
with the new data (spec 4.2, Python `dict.update` semantics): values of
keys also present in `data` are overridden in place, keys present only
in the old document are preserved, and keys new in `data` are appended
in `data`'s order. -/
def updateObj (old new : List (String × Json)) : List (String × Json) :=
  old.map (fun kv =>
    match new.find? (fun p => p.1 == kv.1) with
    | some p => (kv.1, p.2)
    | none => kv) ++
  new.filter (fun p => !(old.any (fun kv => kv.1 == p.1)))

/-- First value stored under key `k` in an object's field list. -/
def jLookup (kvs : List (String × Json)) (k : String) : Option Json :=
  (kvs.find? (fun p => p.1 == k)).map (fun p => p.2)

/-- Modelled from the spec: `create_json_file(data, path)` (spec 4.2).
If the path is absent or empty, `data` is written verbatim; if the file
parses as a JSON object, the merged object replaces the file; a present
but unparsable file raises a decode error; a parsable non-object makes
the update raise.  The result is the written document. -/
def create_json_file (data : List (String × Json)) : FileState → Except String Json
  | .absent => .ok (Json.obj data)
  | .invalid => .error "JSONDecodeError: Expecting value"
  | .content (.obj old) => .ok (Json.obj (updateObj old data))
  | .content _ => .error "AttributeError: object has no attribute update"

/-- Modelled from the spec: the sequential worker fan-out (spec 4.4),
instrumented with its call trace.  `worker i q` is the text returned by
the worker agent labeled `i` for query `q` (the Agent Invoker
collaborator); the returned lists are the worker outputs and the issued
calls, both in execution order. -/
def execWorkersGo (worker : Nat → String → String) :
    Nat → List String → List String × List (Nat × String)
  | _, [] => ([], [])
  | i, q :: qs =>
    let out := worker i q
    let (outs, calls) := execWorkersGo worker (i + 1) qs
    (out :: outs, (i, q) :: calls)

/-- Modelled from the spec: `execute_worker_search_agents(queries)`
(spec 4.4) drives one worker per query in index order starting at 0 and
joins the outputs with a single space; the second component is the call
trace. -/
def execute_worker_search_agents (worker : Nat → String → String)
    (queries : List String) : String × List (Nat × String) :=
  let (outs, calls) := execWorkersGo worker 0 queries
  (String.intercalate " " outs, calls)

/-- Modelled from the spec: the Conversation Log, an ordered append-only
record of (role, content) turns (spec 4.5). -/
structure Conversation where
  history : List (String × String)
deriving Repr

/-- Append one entry. -/
def Conversation.add (c : Conversation) (role content : String) : Conversation :=
  ⟨c.history ++ [(role, content)]⟩

/-- The full ordered history. -/
def Conversation.get_history (c : Conversation) : List (String × String) :=
  c.history

/-- The content of the last entry, or the empty string for an empty
log. -/
def Conversation.get_final_message (c : Conversation) : String :=
  ((c.history.getLast?).map (fun p => p.2)).getD ""

/-- Modelled from the spec: the external representations the Output
Formatter can produce — a single text, or the ordered role/content
pairs (spec 4.6, modes `final`/`last` vs `all`/`dict`). -/
inductive FormattedOut where
  | text (s : String)
  | pairs (l : List (String × String))
deriving Repr

/-- Modelled from the spec: the recognized output modes (spec 6). -/
def output_methods : List String :=
  ["final", "all", "last", "dict"]

/-- Modelled from the spec: the Output Formatter (spec 4.6).
`final`/`last` return the most recent content, `all`/`dict` the full
role/content pairs; an unrecognized mode raises (construction-time
validation keeps this unreachable for validated instances). -/
def history_output_formatter (c : Conversation) : String → Except String FormattedOut
  | "final" => .ok (.text c.get_final_message)
  | "last" => .ok (.text c.get_final_message)
  | "all" => .ok (.pairs c.history)
  | "dict" => .ok (.pairs c.history)
  | other => .error ("Invalid output type: " ++ other)

/-- Modelled from the spec: the Orchestrator state (spec 3): identity,
director role name, output mode, loop bound, export flag, and the owned
Conversation Log.  Collaborator-only configuration (model names, token
budgets) plays no part in the claims and is omitted. -/
structure AdvancedResearch where
  id : String
  director_agent_name : String := "Director-Agent"
  output_type : String := "final"
  max_loops : Nat := 1
  export_on : Bool := false
  conversation : Conversation := ⟨[]⟩

/-- Modelled from the spec: construction validates the output mode and
fails with a configuration error for an unsupported one (spec 4.6). -/
def mkAdvancedResearch (i dan ot : String) (ml : Nat) (eo : Bool) :
    Except String AdvancedResearch :=
  if ot ∈ output_methods then
    .ok { id := i, director_agent_name := dan, output_type := ot,
          max_loops := ml, export_on := eo, conversation := ⟨[]⟩ }
  else
    .error ("Invalid output type: " ++ ot)

/-- Modelled from the spec: the enumeration query for the valid output
modes (spec 4.6). -/
def AdvancedResearch.get_output_methods (_ : AdvancedResearch) : List String :=
  output_methods

/-- Modelled from the spec: `step(task)` performs exactly one director
invocation (`director task`, the Agent Invoker collaborator), appends
the result to the log under the director role, and returns the raw
text; it does not seed the log (spec 4.7). -/
def AdvancedResearch.step (r : AdvancedResearch) (director : String → String)
    (task : String) : String × AdvancedResearch :=
  let out := director task
  (out, { r with conversation := r.conversation.add r.director_agent_name out })

/-- Modelled from the spec: the `run` loop calls `step` exactly `n`
times, each iteration on the same original task (spec 4.7); the `Nat`
counts the director invocations issued. -/
def runLoop (director : String → String) (task : String) :
    AdvancedResearch → Nat → AdvancedResearch × Nat
  | r, 0 => (r, 0)
  | r, n + 1 =>
    let (_, r') := r.step director task
    let (r'', c) := runLoop director task r' n
    (r'', c + 1)

/-- Filesystem effects of the export path, recorded as a trace. -/
inductive FsEvent where
  | makedirs (dir : String)
  | writeJson (path : String) (data : List (String × Json))
deriving Repr

/-- An event is a file write. -/
def FsEvent.isWrite : FsEvent → Bool
  | .writeJson _ _ => true
  | .makedirs _ => false

/-- Modelled from the spec: the export directory.  The spec fixes only
the shape `<export-dir>/<run-identity>.json`; the concrete directory
name is not specified and is modelled as a constant. -/
def export_dir : String :=
  "agent_workspace"

/-- Modelled from the spec: the Conversation Log as role/content pairs,
as the mapping handed to the JSON Merge-Store by the export (spec 4.7);
the exact wrapping key is not specified. -/
def conversation_export_data (c : Conversation) : List (String × Json) :=
  [("conversation_history", Json.arr (c.history.map (fun p =>
    Json.obj [("role", Json.str p.1), ("content", Json.str p.2)])))]

/-- Modelled from the spec: `_export_conversation()` is a no-op when
the export flag is false; otherwise it ensures the target directory
exists and writes the full Conversation Log through the JSON
Merge-Store at `<export-dir>/<run-identity>.json` (spec 4.7). -/
def AdvancedResearch.export_conversation (r : AdvancedResearch) : List FsEvent :=
  if r.export_on then
    [FsEvent.makedirs export_dir,
     FsEvent.writeJson (export_dir ++ "/" ++ r.id ++ ".json")
       (conversation_export_data r.conversation)]
  else []

/-- Modelled from the spec: `run(task)` (spec 4.7).  An absent or empty
task raises the invalid-argument error with no change to the log;
otherwise the log is seeded once with the human task entry, `step` runs
`max_loops` times on the same original task, the Output Formatter is
applied, and export is triggered.  The components returned are the
formatted result (or the error), the post-run state, the number of
director invocations issued, and the filesystem events of the export. -/
def AdvancedResearch.run (r : AdvancedResearch) (director : String → String)
    (task : Option String) :
    Except String FormattedOut × AdvancedResearch × Nat × List FsEvent :=
  match task with
  | none => (.error "task argument is required", r, 0, [])
  | some t =>
    if t = "" then
      (.error "task argument is required", r, 0, [])
    else
      let r1 := { r with conversation := r.conversation.add "human" t }
      let (r2, count) := runLoop director t r1 r.max_loops
      (history_output_formatter r2.conversation r.output_type, r2, count,
        r2.export_conversation)

/-!
Theorems.  Shared lemmas come first, then one theorem per claim (with a
witness where the theorem has hypotheses).
-/

theorem runLoop_spec (director : String → String) (task : String) (n : Nat) :
    ∀ r : AdvancedResearch,
      runLoop director task r n =
        ({ r with conversation :=
            ⟨r.conversation.history ++
              List.replicate n (r.director_agent_name, director task)⟩ }, n) := by
  induction n with
  | zero =>
    intro r
    simp [runLoop]
  | succ n ih =>
    intro r
    simp [runLoop, AdvancedResearch.step, Conversation.add, ih,
      List.replicate_succ]

theorem execWorkersGo_spec (worker : Nat → String → String) :
    ∀ (qs : List String) (i : Nat),
      execWorkersGo worker i qs =
        ((List.enumFrom i qs).map (fun p => worker p.1 p.2), List.enumFrom i qs) := by
  intro qs
  induction qs with
  | nil => intro i; rfl
  | cons q qs ih => intro i; simp [execWorkersGo, ih, List.enumFrom]

/-- C1: for every non-empty task, `run` seeds the Conversation Log with
exactly one human task entry and then performs exactly `max_loops`
director invocations, each appending one entry under the director role
and each on the same original task; from an empty log the final history
is the human entry followed by `max_loops` director entries, of total
length `1 + max_loops`, and exactly `max_loops` director invocations
are issued. -/
theorem run_seeds_once_then_loops (director : String → String)
    (r : AdvancedResearch) (task : String)
    (hlog : r.conversation.history = []) (htask : task ≠ "") :
    (r.run director (some task)).2.1.conversation.history =
        ("human", task) ::
          List.replicate r.max_loops (r.director_agent_name, director task) ∧
    (r.run director (some task)).2.1.conversation.history.length = 1 + r.max_loops ∧
    (r.run director (some task)).2.2.1 = r.max_loops := by
  refine ⟨?_, ?_, ?_⟩
  · simp [AdvancedResearch.run, htask, runLoop_spec, Conversation.add, hlog]
  · simp [AdvancedResearch.run, htask, runLoop_spec, Conversation.add, hlog]
    omega
  · simp [AdvancedResearch.run, htask, runLoop_spec, Conversation.add, hlog]

/-- Witness for C1: with `max_loops = 2` and a non-empty task, the log
ends with 3 entries and exactly 2 director invocations were issued. -/
theorem run_seeds_once_then_loops_witness :
    (AdvancedResearch.run { id := "run1", max_loops := 2 } (fun _ => "out")
        (some "Test research task")).2.1.conversation.history.length = 3 ∧
    (AdvancedResearch.run { id := "run1", max_loops := 2 } (fun _ => "out")
        (some "Test research task")).2.2.1 = 2 := by
  have h := run_seeds_once_then_loops (fun _ => "out")
    { id := "run1", max_loops := 2 } "Test research task" rfl (by decide)
  exact ⟨h.2.1, h.2.2⟩

/-- C2: `run` with an absent (`none`) or empty task returns the
invalid-argument error, leaves the state (and so the Conversation Log)
unchanged, issues no director invocation and no filesystem effect. -/
theorem run_invalid_task_error (r : AdvancedResearch)
    (director : String → String) (task : Option String)
    (h : task = none ∨ task = some "") :
    r.run director task = (.error "task argument is required", r, 0, []) := by
  rcases h with h | h <;> subst h <;> simp [AdvancedResearch.run]

/-- Witness for C2: the error at the concrete absent task. -/
theorem run_invalid_task_error_witness :
    AdvancedResearch.run { id := "run2" } (fun _ => "out") none =
      (.error "task argument is required", { id := "run2" }, 0, []) :=
  run_invalid_task_error { id := "run2" } (fun _ => "out") none (Or.inl rfl)

/-- C6: the Worker Fan-Out Executor invokes one worker per query in
index order 0,1,2,... (the call trace is exactly the enumeration of the
queries), collects outputs preserving input order and joins them with a
single space, and returns the empty string for the empty sequence. -/
theorem worker_fan_out_order_and_join (worker : Nat → String → String)
    (queries : List String) :
    (execute_worker_search_agents worker queries).2 = queries.enum ∧
    (execute_worker_search_agents worker queries).1 =
      String.intercalate " " (queries.enum.map (fun p => worker p.1 p.2)) ∧
    execute_worker_search_agents worker [] = ("", []) := by
  refine ⟨?_, ?_, rfl⟩ <;>
    simp [execute_worker_search_agents, execWorkersGo_spec, List.enum]

/-- C8: `_export_conversation` with the export flag false produces no
filesystem effect at all; with the flag true it creates the export
directory and performs exactly one file write, at
`<export-dir>/<run-identity>.json`, of the Conversation Log as
role/content pairs. -/
theorem export_conversation_frame (r : AdvancedResearch) :
    (r.export_on = false → r.export_conversation = []) ∧
    (r.export_on = true →
      r.export_conversation =
        [FsEvent.makedirs export_dir,
         FsEvent.writeJson (export_dir ++ "/" ++ r.id ++ ".json")
           (conversation_export_data r.conversation)] ∧
      (r.export_conversation.filter FsEvent.isWrite).length = 1) := by
  constructor <;> intro h <;>
    simp [AdvancedResearch.export_conversation, h, FsEvent.isWrite]

/-- Witness for C8: both flag values at concrete states. -/
theorem export_conversation_frame_witness :
    AdvancedResearch.export_conversation { id := "e1", export_on := false } = [] ∧
    ((AdvancedResearch.export_conversation
        { id := "e2", export_on := true }).filter FsEvent.isWrite).length = 1 :=
  ⟨(export_conversation_frame { id := "e1", export_on := false }).1 rfl,
   ((export_conversation_frame { id := "e2", export_on := true }).2 rfl).2⟩

/-- C9: an unsupported output mode makes construction fail with the
configuration error; every supported mode constructs successfully and
the Output Formatter then succeeds on it for every log (so no format
time failure is possible for a validated instance); and
`get_output_methods` returns the valid modes, which include `final`,
`all` and `last`. -/
theorem output_mode_validation :
    (∀ (ot i dan : String) (ml : Nat) (eo : Bool), ot ∉ output_methods →
      mkAdvancedResearch i dan ot ml eo = .error ("Invalid output type: " ++ ot)) ∧
    (∀ (ot i dan : String) (ml : Nat) (eo : Bool), ot ∈ output_methods →
      ∃ r, mkAdvancedResearch i dan ot ml eo = .ok r ∧ r.output_type = ot ∧
        ∀ c : Conversation, ∃ v, history_output_formatter c ot = .ok v) ∧
    "final" ∈ output_methods ∧ "all" ∈ output_methods ∧ "last" ∈ output_methods ∧
    ∀ r : AdvancedResearch, r.get_output_methods = output_methods := by
  refine ⟨?_, ?_, by decide, by decide, by decide, fun r => rfl⟩
  · intro ot i dan ml eo h
    simp [mkAdvancedResearch, h]
  · intro ot i dan ml eo h
    simp only [output_methods, List.mem_cons, List.not_mem_nil, or_false] at h
    rcases h with h | h | h | h <;> subst h <;>
      exact ⟨_, rfl, rfl, fun c => ⟨_, rfl⟩⟩

/-- Witness for C9: a concrete unsupported mode fails at construction,
a concrete supported mode constructs, and the membership facts. -/
theorem output_mode_validation_witness :
    mkAdvancedResearch "i" "Director-Agent" "bogus" 1 false =
      .error ("Invalid output type: " ++ "bogus") ∧
    (∃ r, mkAdvancedResearch "i" "Director-Agent" "all" 1 false = .ok r ∧
      r.output_type = "all" ∧
      ∀ c : Conversation, ∃ v, history_output_formatter c "all" = .ok v) ∧
    "final" ∈ output_methods :=
  ⟨output_mode_validation.1 "bogus" "i" "Director-Agent" 1 false (by decide),
   output_mode_validation.2.1 "all" "i" "Director-Agent" 1 false (by decide),
   output_mode_validation.2.2.1⟩

theorem prefix_of_append (a b c e : String) (h : a = b ++ c) :
    ∃ rest, a ++ e = b ++ rest :=
  ⟨c ++ e, by rw [h, String.append_assoc]⟩

theorem geminiProcess_shape (data : Json) (s : String)
    (h : geminiProcess data = .ok s) :
    (∃ j, s = jsonDumps j) ∨ ∃ j, s = jsonDumpsIndent2 j := by
  unfold geminiProcess at h
  repeat' split at h
  all_goals first
    | exact Except.noConfusion h
    | (injection h with h; exact Or.inl ⟨_, h.symm⟩)
    | (injection h with h; exact Or.inr ⟨_, h.symm⟩)

/-- C3: neither search tool can raise: for every query and every
behaviour of the external world (missing package, backend exception,
missing key, failing request, bad status, unparsable or arbitrary
response body), `duckduckgo_search_tool` and `gemini_search_tool`
return either a string beginning `Error:`, a string beginning
`Search failed:`, or the `json.dumps` serialisation of a JSON
document. -/
theorem search_tools_no_exception (q : String) (denv : DDGOutcome)
    (genv : GeminiEnv) :
    ((∃ rest, duckduckgo_search_tool q 200 3 denv = "Error:" ++ rest) ∨
     (∃ rest, duckduckgo_search_tool q 200 3 denv = "Search failed:" ++ rest) ∨
     (∃ j, duckduckgo_search_tool q 200 3 denv = jsonDumpsIndent2 j)) ∧
    ((∃ rest, (gemini_search_tool q 200 3 genv).1 = "Error:" ++ rest) ∨
     (∃ rest, (gemini_search_tool q 200 3 genv).1 = "Search failed:" ++ rest) ∨
     (∃ j, (gemini_search_tool q 200 3 genv).1 = jsonDumps j) ∨
     (∃ j, (gemini_search_tool q 200 3 genv).1 = jsonDumpsIndent2 j)) := by
  constructor
  · cases denv with
    | importError =>
      exact Or.inl ⟨" duckduckgo-search package is not installed. Please install it with `pip install duckduckgo-search`.", rfl⟩
    | raises e =>
      exact Or.inr (Or.inl (prefix_of_append "Search failed: " "Search failed:" " " e rfl))
    | ok rs =>
      cases hf : ddgFormat rs with
      | error e =>
        refine Or.inr (Or.inl ?_)
        simp only [duckduckgo_search_tool, hf]
        exact prefix_of_append "Search failed: " "Search failed:" " " e rfl
      | ok fs =>
        refine Or.inr (Or.inr ⟨Json.obj [("results", Json.arr fs)], ?_⟩)
        simp only [duckduckgo_search_tool, hf]
  · obtain ⟨apiKey, http⟩ := genv
    cases hk : pyTruthyStrOpt apiKey with
    | false =>
      refine Or.inl ⟨" GOOGLE_API_KEY not found in environment variables.", ?_⟩
      simp [gemini_search_tool, hk]
    | true =>
      cases http with
      | raises e =>
        refine Or.inr (Or.inl ?_)
        simp only [gemini_search_tool, hk]
        simpa using prefix_of_append "Search failed: " "Search failed:" " " e rfl
      | response status body =>
        by_cases hs : status = 200
        · subst hs
          cases body with
          | error e =>
            refine Or.inr (Or.inl ?_)
            simp only [gemini_search_tool, hk]
            simpa using prefix_of_append "Search failed: " "Search failed:" " " e rfl
          | ok data =>
            cases hp : geminiProcess data with
            | error e =>
              refine Or.inr (Or.inl ?_)
              simp only [gemini_search_tool, hk, hp]
              simpa using prefix_of_append "Search failed: " "Search failed:" " " e rfl
            | ok s =>
              rcases geminiProcess_shape data s hp with ⟨j, hj⟩ | ⟨j, hj⟩
              · refine Or.inr (Or.inr (Or.inl ⟨j, ?_⟩))
                simp [gemini_search_tool, hk, hp, hj]
              · refine Or.inr (Or.inr (Or.inr ⟨j, ?_⟩))
                simp [gemini_search_tool, hk, hp, hj]
        · refine Or.inr (Or.inl ?_)
          simp only [gemini_search_tool, hk, ne_eq, hs, not_false_eq_true, reduceIte]
          simpa using prefix_of_append "Search failed: Gemini API returned status "
            "Search failed:" " Gemini API returned status " (toString status) rfl

theorem ddgFormat_keys (rs : List Json) :
    ∀ fs, ddgFormat rs = .ok fs → resultsHaveKeys fs schemaSixKeys = true := by
  induction rs with
  | nil =>
    intro fs h
    injection h with h
    subst h
    rfl
  | cons r rs ih =>
    intro fs h
    unfold ddgFormat at h
    cases h1 : pyGet r "title" with
    | error e => rw [h1] at h; exact Except.noConfusion h
    | ok title =>
      rw [h1] at h
      cases h2 : pyGet r "href" with
      | error e => rw [h2] at h; exact Except.noConfusion h
      | ok url =>
        rw [h2] at h
        cases h3 : pyGetD r "body" (Json.str "") with
        | error e => rw [h3] at h; exact Except.noConfusion h
        | ok text =>
          rw [h3] at h
          cases h4 : ddgFormat rs with
          | error e => rw [h4] at h; exact Except.noConfusion h
          | ok rest =>
            rw [h4] at h
            injection h with h
            subst h
            simp only [resultsHaveKeys, List.all_cons, Bool.and_eq_true]
            exact ⟨rfl, ih rest h4⟩

theorem chunkResults_keys (cs : List Json) :
    ∀ out, chunkResults cs = .ok out → resultsHaveExactKeys out geminiFourKeys = true := by
  induction cs with
  | nil =>
    intro out h
    injection h with h
    subst h
    rfl
  | cons c cs ih =>
    intro out h
    unfold chunkResults at h
    cases h1 : pyGetD c "web" Json.null with
    | error e => rw [h1] at h; exact Except.noConfusion h
    | ok web =>
      simp only [h1] at h
      by_cases hw : pyTruthy web = true
      · rw [if_pos hw] at h
        cases h2 : pyGetD web "title" (Json.str "Unknown Title") with
        | error e => rw [h2] at h; exact Except.noConfusion h
        | ok title =>
          rw [h2] at h
          cases h3 : pyGet web "uri" with
          | error e => rw [h3] at h; exact Except.noConfusion h
          | ok uri =>
            rw [h3] at h
            cases h4 : chunkResults cs with
            | error e => rw [h4] at h; exact Except.noConfusion h
            | ok rest =>
              rw [h4] at h
              injection h with h
              subst h
              simp only [resultsHaveExactKeys, List.all_cons, Bool.and_eq_true]
              exact ⟨rfl, ih rest h4⟩
      · rw [if_neg hw] at h
        cases h4 : chunkResults cs with
        | error e => rw [h4] at h; exact Except.noConfusion h
        | ok rest =>
          rw [h4] at h
          injection h with h
          subst h
          exact ih rest h4

theorem any_fst_eq_map (kvs : List (String × Json)) (k : String) :
    kvs.any (fun p => p.1 == k) = (kvs.map (fun p => p.1)).any (fun c => c == k) := by
  induction kvs with
  | nil => rfl
  | cons x l ih => simp [ih]

theorem exact_gemini_keys (r : Json) (h : (objKeys r == geminiFourKeys) = true) :
    geminiFourKeys.all (hasKey r) = true ∧
    hasKey r "id" = false ∧ hasKey r "publishedDate" = false := by
  cases r with
  | obj kvs =>
    have hk : kvs.map (fun p => p.1) = geminiFourKeys := by
      simpa [objKeys] using h
    refine ⟨?_, ?_, ?_⟩
    · simp only [geminiFourKeys, List.all_cons, List.all_nil, Bool.and_true,
        Bool.and_eq_true, hasKey]
      refine ⟨?_, ?_, ?_, ?_⟩ <;> (rw [any_fst_eq_map, hk]; decide)
    · simp only [hasKey]
      rw [any_fst_eq_map, hk]
      decide
    · simp only [hasKey]
      rw [any_fst_eq_map, hk]
      decide
  | null => simp [objKeys, geminiFourKeys] at h
  | bool b => simp [objKeys, geminiFourKeys] at h
  | num lit => simp [objKeys, geminiFourKeys] at h
  | str s2 => simp [objKeys, geminiFourKeys] at h
  | arr elems => simp [objKeys, geminiFourKeys] at h

theorem exactKeys_presence_absence (rs : List Json)
    (h : resultsHaveExactKeys rs geminiFourKeys = true) :
    resultsHaveKeys rs geminiFourKeys = true ∧
    resultsLackKey rs "id" = true ∧ resultsLackKey rs "publishedDate" = true := by
  induction rs with
  | nil => exact ⟨rfl, rfl, rfl⟩
  | cons r rs ih =>
    simp only [resultsHaveExactKeys, resultsHaveKeys, resultsLackKey, List.all_cons,
      Bool.and_eq_true] at h ⊢
    obtain ⟨hr, hrs⟩ := h
    obtain ⟨p1, p2, p3⟩ := ih hrs
    obtain ⟨q1, q2, q3⟩ := exact_gemini_keys r hr
    exact ⟨⟨q1, p1⟩, ⟨by simp [q2], p2⟩, ⟨by simp [q3], p3⟩⟩

theorem geminiProcess_schema (data : Json) (s : String)
    (h : geminiProcess data = .ok s) :
    s = jsonDumps (Json.obj [("results", Json.arr [])]) ∨
    ∃ fs, s = jsonDumpsIndent2 (Json.obj [("results", Json.arr fs)]) ∧
      resultsHaveExactKeys fs geminiFourKeys = true := by
  unfold geminiProcess at h
  cases h1 : pyGetD data "candidates" (Json.arr []) with
  | error e => rw [h1] at h; exact Except.noConfusion h
  | ok candidates =>
    simp only [h1] at h
    by_cases hc : pyTruthy candidates = true
    · rw [if_pos hc] at h
      cases h2 : pyIndexZero candidates with
      | error e => simp only [h2] at h; exact Except.noConfusion h
      | ok candidate =>
        simp only [h2] at h
        cases h3 : pyGetD candidate "groundingMetadata" (Json.obj []) with
        | error e => simp only [h3] at h; exact Except.noConfusion h
        | ok gm =>
          simp only [h3] at h
          cases h4 : pyGetD gm "groundingChunks" (Json.arr []) with
          | error e => simp only [h4] at h; exact Except.noConfusion h
          | ok chunksJ =>
            simp only [h4] at h
            cases h5 : pyGetD candidate "content" (Json.obj []) with
            | error e => simp only [h5] at h; exact Except.noConfusion h
            | ok content =>
              simp only [h5] at h
              cases h6 : pyGetD content "parts" (Json.arr []) with
              | error e => simp only [h6] at h; exact Except.noConfusion h
              | ok partsJ =>
                simp only [h6] at h
                cases h7 : pyList partsJ with
                | error e => simp only [h7] at h; exact Except.noConfusion h
                | ok parts =>
                  simp only [h7] at h
                  cases h8 : accumText parts "" with
                  | error e => simp only [h8] at h; exact Except.noConfusion h
                  | ok textContent =>
                    simp only [h8] at h
                    cases h9 : pyList chunksJ with
                    | error e => simp only [h9] at h; exact Except.noConfusion h
                    | ok chunks =>
                      simp only [h9] at h
                      cases h10 : chunkResults chunks with
                      | error e => simp only [h10] at h; exact Except.noConfusion h
                      | ok rest =>
                        simp only [h10] at h
                        injection h with h
                        refine Or.inr ⟨_, h.symm, ?_⟩
                        simp only [resultsHaveExactKeys, List.all_append, Bool.and_eq_true]
                        constructor
                        · by_cases ht : pyTruthy (Json.str textContent) = true
                          · rw [if_pos ht]; rfl
                          · rw [if_neg ht]; rfl
                        · exact chunkResults_keys chunks rest h10
    · rw [if_neg hc] at h
      injection h with h
      exact Or.inl h.symm

/-- C4, amended: on every successful search both tools return
`json.dumps` of a document whose top-level object has key `results`;
every DuckDuckGo result object carries all of the keys `title`, `url`,
`text`, `score`, `id`, `publishedDate`, while every Gemini result
object carries only the keys `title`, `url`, `text`, `score` — its key
list is exactly those four, so in particular no Gemini result ever
carries `id` or `publishedDate`, contrary to the claim as stated. -/
theorem search_output_schema (q : String) (rs fs : List Json)
    (data : Json) (s : String) :
    (ddgFormat rs = .ok fs →
      duckduckgo_search_tool q 200 3 (.ok rs) =
        jsonDumpsIndent2 (Json.obj [("results", Json.arr fs)]) ∧
      searchOutputSchemaOK (Json.obj [("results", Json.arr fs)]) schemaSixKeys = true) ∧
    (geminiProcess data = .ok s →
      s = jsonDumps (Json.obj [("results", Json.arr [])]) ∨
      ∃ gs, s = jsonDumpsIndent2 (Json.obj [("results", Json.arr gs)]) ∧
        searchOutputSchemaOK (Json.obj [("results", Json.arr gs)]) geminiFourKeys = true ∧
        resultsHaveExactKeys gs geminiFourKeys = true ∧
        resultsLackKey gs "id" = true ∧
        resultsLackKey gs "publishedDate" = true) := by
  constructor
  · intro h
    refine ⟨by simp [duckduckgo_search_tool, h], ?_⟩
    exact ddgFormat_keys rs fs h
  · intro h
    rcases geminiProcess_schema data s h with h1 | ⟨gs, hgs, hx⟩
    · exact Or.inl h1
    · obtain ⟨p1, p2, p3⟩ := exactKeys_presence_absence gs hx
      exact Or.inr ⟨gs, hgs, p1, hx, p2, p3⟩

/-- Witness for the amended C4, at the concrete empty result list for
DuckDuckGo and the concrete no-candidates body for Gemini. -/
theorem search_output_schema_witness :
    (duckduckgo_search_tool "q" 200 3 (.ok []) =
       jsonDumpsIndent2 (Json.obj [("results", Json.arr [])]) ∧
     searchOutputSchemaOK (Json.obj [("results", Json.arr [])]) schemaSixKeys = true) ∧
    (jsonDumps (Json.obj [("results", Json.arr [])]) =
       jsonDumps (Json.obj [("results", Json.arr [])]) ∨
     ∃ gs, jsonDumps (Json.obj [("results", Json.arr [])]) =
         jsonDumpsIndent2 (Json.obj [("results", Json.arr gs)]) ∧
       searchOutputSchemaOK (Json.obj [("results", Json.arr gs)]) geminiFourKeys = true ∧
       resultsHaveExactKeys gs geminiFourKeys = true ∧
       resultsLackKey gs "id" = true ∧
       resultsLackKey gs "publishedDate" = true) :=
  ⟨(search_output_schema "q" [] [] (Json.obj [])
      (jsonDumps (Json.obj [("results", Json.arr [])]))).1 rfl,
   (search_output_schema "q" [] [] (Json.obj [])
      (jsonDumps (Json.obj [("results", Json.arr [])]))).2 rfl⟩

/-- Counterexample for C4 as stated: a successful `gemini_search_tool`
call whose (single) result object lacks the claimed keys `id` and
`publishedDate` — the serialised document fails the six-key schema the
claim asserts for every successful search. -/
theorem search_output_schema_counterexample :
    (gemini_search_tool "q" 200 3
        ⟨some "k", .response 200 (.ok geminiBodyOneCandidate)⟩).1 =
      jsonDumpsIndent2 geminiDocOneCandidate ∧
    searchOutputSchemaOK geminiDocOneCandidate schemaSixKeys = false ∧
    searchOutputSchemaOK geminiDocOneCandidate geminiFourKeys = true := by
  refine ⟨rfl, by decide, by decide⟩

/-- C10: with `GOOGLE_API_KEY` unset, `gemini_search_tool` returns the
fixed error string, and it does so without issuing the HTTP request (no
matter what the request's outcome would have been); and when the API
responds 200 with a body whose `candidates` entry is missing, empty or
otherwise falsy, the tool returns `json.dumps` of the empty results
document. -/
theorem gemini_no_key_and_no_candidates :
    (∀ (q : String) (http : HttpOutcome),
      gemini_search_tool q 200 3 ⟨none, http⟩ =
        ("Error: GOOGLE_API_KEY not found in environment variables.", false)) ∧
    (∀ (q key : String) (data c : Json),
      key ≠ "" →
      pyGetD data "candidates" (Json.arr []) = .ok c →
      pyTruthy c = false →
      gemini_search_tool q 200 3 ⟨some key, .response 200 (.ok data)⟩ =
        (jsonDumps (Json.obj [("results", Json.arr [])]), true)) := by
  constructor
  · intro q http
    simp [gemini_search_tool, pyTruthyStrOpt]
  · intro q key data c hkey hc hct
    simp [gemini_search_tool, pyTruthyStrOpt, hkey, geminiProcess, hc, hct]

/-- Witness for C10: the unset key at a concrete call, and a concrete
body with no candidates. -/
theorem gemini_no_key_and_no_candidates_witness :
    gemini_search_tool "q" 200 3 ⟨none, .raises "boom"⟩ =
      ("Error: GOOGLE_API_KEY not found in environment variables.", false) ∧
    gemini_search_tool "q" 200 3 ⟨some "k", .response 200 (.ok (Json.obj []))⟩ =
      (jsonDumps (Json.obj [("results", Json.arr [])]), true) :=
  ⟨gemini_no_key_and_no_candidates.1 "q" (.raises "boom"),
   gemini_no_key_and_no_candidates.2 "q" "k" (Json.obj []) (Json.arr [])
     (by decide) rfl rfl⟩

theorem option_map_or {α β : Type} (f : α → β) (a b : Option α) :
    (a.or b).map f = (a.map f).or (b.map f) := by
  cases a <;> rfl

theorem jLookup_append (l1 l2 : List (String × Json)) (k : String) :
    jLookup (l1 ++ l2) k = (jLookup l1 k).or (jLookup l2 k) := by
  simp [jLookup, List.find?_append, option_map_or]

theorem jLookup_map_override (old new : List (String × Json)) (k : String) :
    jLookup (old.map (fun kv =>
      match new.find? (fun p => p.1 == kv.1) with
      | some p => (kv.1, p.2)
      | none => kv)) k =
      (jLookup old k).map (fun v => (jLookup new k).getD v) := by
  induction old with
  | nil => rfl
  | cons kv old ih =>
    by_cases hk : kv.1 == k
    · have hk' : kv.1 = k := by simpa using hk
      subst hk'
      cases hf : new.find? (fun p => p.1 == kv.1) with
      | none =>
        simp [jLookup, List.find?_cons, hf]
      | some p =>
        simp [jLookup, List.find?_cons, hf]
    · cases hf : new.find? (fun p => p.1 == kv.1) with
      | none =>
        simpa [jLookup, List.find?_cons, hf, hk] using ih
      | some p =>
        simpa [jLookup, List.find?_cons, hf, hk] using ih

theorem jLookup_filter_new (old new : List (String × Json)) (k : String) :
    jLookup (new.filter (fun p => !(old.any (fun kv => kv.1 == p.1)))) k =
      if old.any (fun kv => kv.1 == k) then none else jLookup new k := by
  induction new with
  | nil => cases h : old.any (fun kv => kv.1 == k) <;> simp [jLookup, h]
  | cons p new ih =>
    by_cases hk : p.1 == k
    · have hk' : p.1 = k := by simpa using hk
      subst hk'
      cases ha : old.any (fun kv => kv.1 == p.1) with
      | true => simpa [List.filter_cons, ha] using ih
      | false => simp [List.filter_cons, ha, jLookup, List.find?_cons]
    · cases ha : old.any (fun kv => kv.1 == p.1) with
      | true => simpa [List.filter_cons, ha, jLookup, List.find?_cons, hk] using ih
      | false => simpa [List.filter_cons, ha, jLookup, List.find?_cons, hk] using ih

theorem any_eq_find?_isSome (l : List (String × Json)) (f : String × Json → Bool) :
    l.any f = (l.find? f).isSome := by
  induction l with
  | nil => rfl
  | cons x l ih =>
    cases hx : f x with
    | true => simp [List.find?_cons, hx]
    | false => simp [List.find?_cons, hx, ih]

theorem jLookup_updateObj (old new : List (String × Json)) (k : String) :
    jLookup (updateObj old new) k = (jLookup new k).or (jLookup old k) := by
  unfold updateObj
  rw [jLookup_append, jLookup_map_override, jLookup_filter_new]
  cases ho : old.find? (fun p => p.1 == k) with
  | none =>
    have ha : old.any (fun kv => kv.1 == k) = false := by
      rw [any_eq_find?_isSome, ho]; rfl
    simp [jLookup, ho, ha]
  | some v =>
    have ha : old.any (fun kv => kv.1 == k) = true := by
      rw [any_eq_find?_isSome, ho]; rfl
    cases hn : new.find? (fun p => p.1 == k) with
    | none => simp [jLookup, ho, ha, hn]
    | some w => simp [jLookup, ho, ha, hn]

/-- C5: the JSON Merge-Store updates the stored object key-by-key —
for every key, the merged document's value is the new data's value when
the key occurs in the new data and the old document's value otherwise
(new overrides, old-only keys are preserved); and concretely, writing
the object with `a` mapped to 1 into an absent file, then the object
with `b` mapped to 2, then the object with `a` mapped to 3, yields the
documents claimed (numbers carry their serialised literal). -/
theorem merge_store_key_by_key :
    (∀ (old new : List (String × Json)) (k : String),
      jLookup (updateObj old new) k = (jLookup new k).or (jLookup old k)) ∧
    create_json_file [("a", Json.num "1")] .absent =
      .ok (Json.obj [("a", Json.num "1")]) ∧
    create_json_file [("b", Json.num "2")] (.content (Json.obj [("a", Json.num "1")])) =
      .ok (Json.obj [("a", Json.num "1"), ("b", Json.num "2")]) ∧
    create_json_file [("a", Json.num "3")]
        (.content (Json.obj [("a", Json.num "1"), ("b", Json.num "2")])) =
      .ok (Json.obj [("a", Json.num "3"), ("b", Json.num "2")]) :=
  ⟨jLookup_updateObj, rfl, rfl, rfl⟩

theorem padBaseDigits_len (b : Nat) : ∀ w n, (padBaseDigits b w n).length = w := by
  intro w
  induction w with
  | zero => intro n; rfl
  | succ w ih => intro n; simp [padBaseDigits, ih]

theorem digitChar_inj_lt10 : ∀ a, a < 10 → ∀ c, c < 10 →
    Nat.digitChar a = Nat.digitChar c → a = c := by decide

theorem digitChar_isDigit_lt10 : ∀ a, a < 10 →
    (Nat.digitChar a).isDigit = true := by decide

theorem padBaseDigits_inj10 : ∀ (w m n : Nat), m < 10 ^ w → n < 10 ^ w →
    padBaseDigits 10 w m = padBaseDigits 10 w n → m = n := by
  intro w
  induction w with
  | zero =>
    intro m n hm hn _
    simp only [pow_zero, Nat.lt_one_iff] at hm hn
    omega
  | succ w ih =>
    intro m n hm hn h
    simp only [padBaseDigits] at h
    obtain ⟨h1, h2⟩ := List.append_inj h (by simp [padBaseDigits_len])
    have hd : m % 10 = n % 10 := by
      injection h2 with h2
      exact digitChar_inj_lt10 _ (Nat.mod_lt _ (by norm_num)) _
        (Nat.mod_lt _ (by norm_num)) h2
    have hq : m / 10 = n / 10 := by
      refine ih _ _ ?_ ?_ h1
      · exact Nat.div_lt_of_lt_mul (by simpa [Nat.pow_succ, Nat.mul_comm] using hm)
      · exact Nat.div_lt_of_lt_mul (by simpa [Nat.pow_succ, Nat.mul_comm] using hn)
    omega

theorem padBaseDigits_isDigit : ∀ w n,
    (padBaseDigits 10 w n).all Char.isDigit = true := by
  intro w
  induction w with
  | zero => intro n; rfl
  | succ w ih =>
    intro n
    simp only [padBaseDigits, List.all_append, Bool.and_eq_true]
    refine ⟨ih _, ?_⟩
    simp only [List.all_cons, List.all_nil, Bool.and_true]
    exact digitChar_isDigit_lt10 _ (Nat.mod_lt _ (by norm_num))

theorem timestampChars_inj : ∀ t t' : Timestamp, t.valid → t'.valid →
    timestampChars t = timestampChars t' → t = t' := by
  rintro ⟨y, mo, dy, hr, mi, sc⟩ ⟨y', mo', dy', hr', mi', sc'⟩
    ⟨hy, hmo, hdy, hhr, hmi, hsc⟩ ⟨hy', hmo', hdy', hhr', hmi', hsc'⟩ h
  simp only [timestampChars] at h
  obtain ⟨h, e6⟩ := List.append_inj h (by simp [padBaseDigits_len])
  obtain ⟨h, e5⟩ := List.append_inj h (by simp [padBaseDigits_len])
  obtain ⟨h, e4⟩ := List.append_inj h (by simp [padBaseDigits_len])
  obtain ⟨h, e3⟩ := List.append_inj h (by simp [padBaseDigits_len])
  obtain ⟨e1, e2⟩ := List.append_inj h (by simp [padBaseDigits_len])
  have q1 : y = y' := padBaseDigits_inj10 4 _ _ (by simpa using hy) (by simpa using hy') e1
  have q2 : mo = mo' := padBaseDigits_inj10 2 _ _ (by simpa using hmo) (by simpa using hmo') e2
  have q3 : dy = dy' := padBaseDigits_inj10 2 _ _ (by simpa using hdy) (by simpa using hdy') e3
  have q4 : hr = hr' := padBaseDigits_inj10 2 _ _ (by simpa using hhr) (by simpa using hhr') e4
  have q5 : mi = mi' := padBaseDigits_inj10 2 _ _ (by simpa using hmi) (by simpa using hmi') e5
  have q6 : sc = sc' := padBaseDigits_inj10 2 _ _ (by simpa using hsc) (by simpa using hsc') e6
  subst q1; subst q2; subst q3; subst q4; subst q5; subst q6
  rfl

/-- C7: for every clock reading whose components fit the fixed-width
fields, `generate_id` returns `<prefix>-time-<ts>` where `ts` has
exactly 14 characters, all decimal digits (the `YYYYMMDDHHMMSS`
rendering of the reading); and two calls whose clock readings differ —
in particular calls made in different clock seconds — return distinct
identifiers. -/
theorem generate_id_shape_and_distinct (t t' : Timestamp)
    (ht : t.valid) (ht' : t'.valid) :
    (∃ ts : String, generate_id t = "AdvancedResearch-time-" ++ ts ∧
      ts.length = 14 ∧ ts.data.all Char.isDigit = true) ∧
    (t ≠ t' → generate_id t ≠ generate_id t') := by
  constructor
  · refine ⟨String.mk (timestampChars t), rfl, ?_, ?_⟩
    · rw [String.length_mk]
      simp [timestampChars, padBaseDigits_len]
    · show (timestampChars t).all Char.isDigit = true
      simp [timestampChars, List.all_append, padBaseDigits_isDigit]
  · intro hne heq
    apply hne
    apply timestampChars_inj t t' ht ht'
    have hdata : ("AdvancedResearch-time-" ++ String.mk (timestampChars t)).data =
        ("AdvancedResearch-time-" ++ String.mk (timestampChars t')).data := by
      rw [show ("AdvancedResearch-time-" ++ String.mk (timestampChars t)) = generate_id t from rfl,
        show ("AdvancedResearch-time-" ++ String.mk (timestampChars t')) = generate_id t' from rfl,
        heq]
    rw [String.data_append, String.data_append] at hdata
    exact List.append_cancel_left hdata

/-- Witness for C7: a concrete valid clock reading, and two readings one
second apart yielding distinct identifiers. -/
theorem generate_id_shape_and_distinct_witness :
    Timestamp.valid ⟨2024, 1, 2, 3, 4, 5⟩ ∧
    generate_id ⟨2024, 1, 2, 3, 4, 5⟩ ≠ generate_id ⟨2024, 1, 2, 3, 4, 6⟩ :=
  ⟨by decide,
   (generate_id_shape_and_distinct ⟨2024, 1, 2, 3, 4, 5⟩ ⟨2024, 1, 2, 3, 4, 6⟩
      (by decide) (by decide)).2 (by decide)⟩
